import Mathlib

/-!
Shallow embedding of the p4rt device/port/program registry
(src/p4rt/p4rt.c of tsihang/P4-OvS).

Modelling conventions:
* C heap pointers to `struct p4rt` records are modelled by a `nodeId : Nat`
  allocated freshly by the global state; pointer equality is `nodeId` equality.
* `struct p4rt_class` objects are static backend descriptors; pointer identity
  is modelled by an `id : Nat` field.  The backend operations are external
  collaborators, so each operation is modelled by the data it returns to this
  module (an error code, an optional query answer, ...).
* The hash maps `all_p4rts` and `p4rt->ports` are modelled as lists; the hash
  lookups become `List.find?` on the same key the C code compares.
* `ovsrcu_postpone` is modelled by a FIFO queue of deferred callbacks in the
  global state, together with `ovsrcu_run_one` which runs the head callback
  (RCU runs each postponed callback after a grace period, in submission order).
* Machine integer error codes are `Int`; `errno` constants keep their values.
-/

set_option autoImplicit false

namespace P4OvS

/-- errno value ENOENT (2). -/
def ENOENT : Int := 2

/-- errno value ENOMEM (12). -/
def ENOMEM : Int := 12

/-- errno value EACCES (13). -/
def EACCES : Int := 13

/-- errno value EEXIST (17). -/
def EEXIST : Int := 17

/-- errno value ENODEV (19). -/
def ENODEV : Int := 19

/-- errno value ENOSPC (28). -/
def ENOSPC : Int := 28

/-- errno value EAFNOSUPPORT (97). -/
def EAFNOSUPPORT : Int := 97

/-- OpenFlow 1.0 reserved port number OFPP_LOCAL (0xfffe). -/
def OFPP_LOCAL : Nat := 0xfffe

/-- OpenFlow 1.0 reserved port number OFPP_NONE (0xffff). -/
def OFPP_NONE : Nat := 0xffff

/-- Model of `struct p4rt_port`: the answer a backend gives to `port_query_by_name`
(fields `name`, `type`, `port_no`). -/
structure P4rtPortInfo where
  name : String
  type : String
  port_no : Nat
deriving DecidableEq, Repr

/-- Model of `struct p4rt_class`: a backend descriptor.  `id` models the pointer
identity of the static descriptor object.  Each external backend operation is
modelled by the data it returns to p4rt.c for the call in question:
`enumerate_types` is the set of type names the backend adds to the sset,
`alloc_ok` / `port_alloc_ok` / `program_alloc_ok` say whether the
corresponding `alloc` hook returns a non-NULL object, `construct`,
`port_construct` and `program_insert` are the error codes those hooks return,
`port_query_by_name` is the backend's authoritative port answer (`none` models
a nonzero error from the hook), `del` is the optional datapath deletion hook
and `type_run` the optional per-type run hook. -/
structure P4rtClass where
  id : Nat
  enumerate_types : List String
  alloc_ok : Bool
  construct : Int
  port_alloc_ok : Bool
  port_construct : Int
  program_alloc_ok : Bool
  program_insert : Int
  port_query_by_name : String → Option P4rtPortInfo
  del : Option (String → String → Int)
  type_run : Option (String → Int)

/-- A network-device handle.  The netdev collaborator's contract is that
`netdev_open(name, type)` yields a handle whose `netdev_get_name` is the
requested `name`; only success or failure of the open depends on the
environment. -/
structure Netdev where
  name : String
deriving DecidableEq, Repr

/-- Model of `struct p4port`: a port record owned by a device (field `created` and the
backend-private payload are not observed by any code modelled here). -/
structure P4port where
  port_no : Nat
  netdev : Netdev
deriving DecidableEq, Repr

/-- Model of `struct program`: the installed P4 program blob (`data`, `data_len`).
The back-reference to the owning device is non-owning and not modelled. -/
structure Program where
  data : List Nat
  data_len : Nat
deriving DecidableEq, Repr

/-- Model of `struct p4rt`: a device record.  `nodeId` models the heap identity of the
record (the pointer); `p4rt_class` is the owning backend descriptor. -/
structure P4rt where
  nodeId : Nat
  name : String
  type : String
  dev_id : Nat
  ports : List P4port
  prog : Option Program
  p4rt_class : P4rtClass

/-- A callback postponed with `ovsrcu_postpone`, identified by the device
record (pointer) it was scheduled for. -/
inductive Deferred where
  | destroyDefer (nodeId : Nat)
  | destroy (nodeId : Nat)
deriving DecidableEq, Repr

/-- The global state of the module: the registered backend classes
(`p4rt_classes`, in probe order), the device registry hmap `all_p4rts`, the
queue of RCU-postponed callbacks, the list of device records whose memory has
been handed back to `dealloc` (reclaimed), and the next fresh heap identity. -/
structure GlobalState where
  p4rt_classes : List P4rtClass
  all_p4rts : List P4rt
  pending : List Deferred
  reclaimed : List Nat
  nextId : Nat

/-- Function `p4rt_class_find__`: linear scan over the registered classes, returning
the first one whose enumerated type set contains `type` (NULL = `none`). -/
def p4rt_class_find__ (classes : List P4rtClass) (type : String) : Option P4rtClass :=
  classes.find? (fun c => c.enumerate_types.contains type)

/-- Function `p4rt_class_register`: returns EEXIST if the identical (same pointer)
class is already registered, otherwise appends it to the array. -/
def p4rt_class_register (classes : List P4rtClass) (new_class : P4rtClass) :
    List P4rtClass × Int :=
  if classes.any (fun c => c.id == new_class.id) then (classes, EEXIST)
  else (classes ++ [new_class], 0)

/-- Function `p4rt_lookup`: hash lookup of a device by name in `all_p4rts`
(`strcmp(p4rt->name, name)` on the matching bucket). -/
def p4rt_lookup (devs : List P4rt) (name : String) : Option P4rt :=
  devs.find? (fun p => p.name == name)

/-- Function `p4rt_lookup_by_dev_id`: linear scan of `all_p4rts` for `dev_id`. -/
def p4rt_lookup_by_dev_id (devs : List P4rt) (dev_id : Nat) : Option P4rt :=
  devs.find? (fun p => p.dev_id == dev_id)

/-- Function `p4rt_get_port`: lookup of a port by port number in a device's port hmap. -/
def p4rt_get_port (p : P4rt) (port_no : Nat) : Option P4port :=
  p.ports.find? (fun q => q.port_no == port_no)

/-- Modelled from the spec: `dpif_normalize_type` lives in lib/dpif.c, outside
this module's source.  The spec says `create` first normalizes the type, and
the in-module defaulting in `p4rt_type_run` shows the convention: a null or
empty datapath type defaults to "system".  A NULL C string is modelled as the
empty string. -/
def dpif_normalize_type (type : String) : String :=
  if type = "" then "system" else type

/-- Remove the record with heap identity `nid` from the registry list
(`hmap_remove` on the exact node). -/
def removeFirstByNodeId : List P4rt → Nat → List P4rt
  | [], _ => []
  | p :: rest, nid => if p.nodeId = nid then rest else p :: removeFirstByNodeId rest nid

/-- Overwrite the record with heap identity `nid` in the registry list
(a mutation through the pointer to that record). -/
def replaceFirstByNodeId : List P4rt → Nat → P4rt → List P4rt
  | [], _, _ => []
  | p :: rest, nid, q =>
    if p.nodeId = nid then q :: rest else p :: replaceFirstByNodeId rest nid q

/-- Find the record with heap identity `nid` (dereference of the pointer). -/
def findByNodeId (devs : List P4rt) (nid : Nat) : Option P4rt :=
  devs.find? (fun p => p.nodeId == nid)

/-- Function `p4rt_destroy__`: removes the device from `all_p4rts` under the mutex,
frees its name, type and port hmap, and hands the record to the backend's
`dealloc` (modelled by appending its identity to `reclaimed`). -/
def p4rt_destroy__ (st : GlobalState) (nid : Nat) : GlobalState :=
  { st with
    all_p4rts := removeFirstByNodeId st.all_p4rts nid,
    reclaimed := st.reclaimed ++ [nid] }

/-- Function `p4rt_destroy`: for a non-NULL device, destroys every port (emptying the
port hmap), destroys the installed program object if any, invokes the
backend's `destruct`, and postpones `p4rt_destroy_defer__` with RCU.  Note
that the device is NOT removed from `all_p4rts` here: `hmap_remove` happens
only inside the deferred `p4rt_destroy__`. -/
def p4rt_destroy (st : GlobalState) (p : Option Nat) (del : Bool) : GlobalState :=
  match p with
  | none => st
  | some nid =>
    match findByNodeId st.all_p4rts nid with
    | none => st
    | some dev =>
      let dev2 : P4rt := { dev with ports := [], prog := none }
      { st with
        all_p4rts := replaceFirstByNodeId st.all_p4rts nid dev2,
        pending := st.pending ++ [Deferred.destroyDefer nid] }

/-- Run the head RCU callback after a grace period: `p4rt_destroy_defer__`
just postpones `p4rt_destroy__` for another grace period, and
`p4rt_destroy__` unregisters and reclaims the record. -/
def ovsrcu_run_one (st : GlobalState) : GlobalState :=
  match st.pending with
  | [] => st
  | Deferred.destroyDefer nid :: rest =>
    { st with pending := rest ++ [Deferred.destroy nid] }
  | Deferred.destroy nid :: rest =>
    p4rt_destroy__ { st with pending := rest } nid

/-- Run `n` RCU callback steps. -/
def ovsrcu_run (st : GlobalState) : Nat → GlobalState
  | 0 => st
  | n + 1 => ovsrcu_run (ovsrcu_run_one st) n

/-- Function `p4rt_create`: normalizes the type, resolves the backend class
(EAFNOSUPPORT if none), allocates the record (ENOMEM on NULL), registers the
device in `all_p4rts` under the mutex, then calls the backend's `construct`
outside the lock; on construct failure the device is torn down synchronously
with `p4rt_destroy__` and the error returned.  The third component models
`*p4rtp`. -/
def p4rt_create (st : GlobalState) (datapath_name datapath_type0 : String) :
    Int × GlobalState × Option P4rt :=
  let datapath_type := dpif_normalize_type datapath_type0
  match p4rt_class_find__ st.p4rt_classes datapath_type with
  | none => (EAFNOSUPPORT, st, none)
  | some cls =>
    if cls.alloc_ok then
      let p : P4rt :=
        { nodeId := st.nextId, name := datapath_name, type := datapath_type,
          dev_id := 0, ports := [], prog := none, p4rt_class := cls }
      let st1 : GlobalState :=
        { st with all_p4rts := st.all_p4rts ++ [p], nextId := st.nextId + 1 }
      if cls.construct = 0 then (0, st1, some p)
      else (cls.construct, p4rt_destroy__ st1 p.nodeId, none)
    else (ENOMEM, st, none)

/-- Function `p4rt_delete(name, type)`: EAFNOSUPPORT when no class supports `type`,
EACCES when the class has no `del` hook, else the hook's result. -/
def p4rt_delete (classes : List P4rtClass) (name type : String) : Int :=
  match p4rt_class_find__ classes type with
  | none => EAFNOSUPPORT
  | some cls =>
    match cls.del with
    | none => EACCES
    | some f => f type name

/-- Function `p4rt_type_run`: defaults a null or empty type to "system", looks up the
class, and reads `class->type_run` without a NULL check.  A `none` result
models the NULL-pointer dereference on the not-found branch; otherwise the
returned error code is the hook's result (0 when the hook is absent). -/
def p4rt_type_run (classes : List P4rtClass) (datapath_type0 : String) : Option Int :=
  let datapath_type := if datapath_type0 = "" then "system" else datapath_type0
  match p4rt_class_find__ classes datapath_type with
  | none => none
  | some cls =>
    match cls.type_run with
    | some f => some (f datapath_type)
    | none => some 0

/-- Function `p4rt_type_wait`: normalizes the type, looks up the class, and reads
`class->type_wait` without a NULL check.  A `none` result models the
NULL-pointer dereference; the optional backend hook itself is external and
has no modelled state effect. -/
def p4rt_type_wait (classes : List P4rtClass) (datapath_type0 : String) : Option Unit :=
  let datapath_type := dpif_normalize_type datapath_type0
  match p4rt_class_find__ classes datapath_type with
  | none => none
  | some _ => some ()

/-- Model of `struct p4rt_switch_features` (fields `n_tables`, `n_ports`). -/
structure P4rtSwitchFeatures where
  n_tables : Nat
  n_ports : Nat
deriving DecidableEq, Repr

/-- Function `p4rt_query_switch_features`: ENODEV when the name matches no registered
device; otherwise `n_tables` is hardcoded 0 (TODO in the source) and
`n_ports` is `hmap_count(&p4rt->ports)`. -/
def p4rt_query_switch_features (devs : List P4rt) (name : String) :
    Except Int P4rtSwitchFeatures :=
  match p4rt_lookup devs name with
  | none => Except.error ENODEV
  | some p => Except.ok { n_tables := 0, n_ports := p.ports.length }

/-- The file system seen by `p4rt_initialize_datapath`: `contents filename`
is the byte content of the file, `none` when `fopen` fails.  The modelled
read is complete, so the short-read error branch cannot arise. -/
structure FileEnv where
  contents : String → Option (List Nat)

/-- Function `p4rt_initialize_datapath`: returns 0 immediately when the device already
holds a program (before any file access); otherwise reads the file (ENOENT if
it cannot be opened), allocates a program (ENOMEM on NULL), and installs it
via the backend's `program_insert`, recording it in `p->prog` on success.  On
insert failure the freshly read record is leaked (TODO in the source) and the
device is unchanged.  The third component reports whether the file was
accessed. -/
def p4rt_initialize_datapath (env : FileEnv) (p : P4rt) (filename : String) :
    Int × P4rt × Bool :=
  if p.prog.isSome then (0, p, false)
  else
    match env.contents filename with
    | none => (ENOENT, p, true)
    | some bytes =>
      if p.p4rt_class.program_alloc_ok then
        let prog : Program := { data := bytes, data_len := bytes.length }
        if p.p4rt_class.program_insert = 0 then
          (0, { p with prog := some prog }, true)
        else (p.p4rt_class.program_insert, p, true)
      else (ENOMEM, p, true)

/-- P4Runtime status values used by the modelled entry points. -/
inductive PiStatus where
  | success
  | devNotAssigned
  | devOutOfRange
  | targetError
deriving DecidableEq, Repr

/-- The per-device body of `_pi_update_device_start` once the device has been
found.  When the device has no program, a fresh one is allocated (generic
target error on NULL) and deallocated again if `program_insert` fails.  When
the device already has a program, `prog` aliases `p4rt->prog`, so its bytes
and length are overwritten in place before `program_insert` runs; on failure
the overwritten record stays installed (the `!p4rt->prog` guard skips the
dealloc and nothing restores the old bytes). -/
def pi_update_device_start_dev (p : P4rt) (device_data : List Nat) :
    PiStatus × P4rt :=
  match p.prog with
  | none =>
    if p.p4rt_class.program_alloc_ok then
      let prog : Program := { data := device_data, data_len := device_data.length }
      if p.p4rt_class.program_insert = 0 then
        (PiStatus.success, { p with prog := some prog })
      else (PiStatus.targetError, p)
    else (PiStatus.targetError, p)
  | some prog0 =>
    let prog : Program := { prog0 with data := device_data, data_len := device_data.length }
    if p.p4rt_class.program_insert = 0 then
      (PiStatus.success, { p with prog := some prog })
    else (PiStatus.targetError, { p with prog := some prog })

/-- Function `_pi_update_device_start`: looks the device up by numeric id
(DEV_OUT_OF_RANGE when absent) and runs the program-push body on the found
record. -/
def pi_update_device_start (st : GlobalState) (dev_id : Nat) (device_data : List Nat) :
    PiStatus × GlobalState :=
  match p4rt_lookup_by_dev_id st.all_p4rts dev_id with
  | none => (PiStatus.devOutOfRange, st)
  | some p =>
    let r := pi_update_device_start_dev p device_data
    (r.1, { st with all_p4rts := replaceFirstByNodeId st.all_p4rts p.nodeId r.2 })

/-- The netdev collaborator environment: whether `netdev_open(name, type)`
succeeds for a given name and type. -/
structure NetdevEnv where
  netdev_open_ok : String → String → Bool

/-- Function `alloc_p4rt_port`: the port-number allocator is a stub that always
returns port 1 (TODO in the source). -/
def alloc_p4rt_port (_p : P4rt) (_netdev_name : String) : Nat := 1

/-- Function `p4rt_port_open`: opens the queried port's netdev (an open failure is
logged and reported as success with a NULL netdev, skipping the port), then
resolves an OFPP_NONE port number: the device's own name gets OFPP_LOCAL,
anything else a number from the stub allocator (the ENOSPC branch closes the
netdev but is unreachable with the stub). -/
def p4rt_port_open (env : NetdevEnv) (p : P4rt) (info : P4rtPortInfo) :
    Int × P4rtPortInfo × Option Netdev :=
  if env.netdev_open_ok info.name info.type then
    if info.port_no = OFPP_NONE then
      if p.name = info.name then
        (0, { info with port_no := OFPP_LOCAL }, some { name := info.name })
      else
        let port_no := alloc_p4rt_port p info.name
        if port_no = OFPP_NONE then (ENOSPC, info, none)
        else (0, { info with port_no := port_no }, some { name := info.name })
    else (0, info, some { name := info.name })
  else (0, info, none)

/-- Remove the port with number `n` from a device's port list
(`hmap_remove` on the node found by `p4rt_get_port`). -/
def removeFirstPortByNo : List P4port → Nat → List P4port
  | [], _ => []
  | q :: rest, n => if q.port_no = n then rest else q :: removeFirstPortByNo rest n

/-- Function `p4port_remove` / `p4port_destroy`: backend `port_destruct` followed by
removal of the port from the hmap and closing of its netdev. -/
def p4port_remove (p : P4rt) (port_no : Nat) : P4rt :=
  { p with ports := removeFirstPortByNo p.ports port_no }

/-- Function `p4port_install`: allocates the port (ENOMEM on NULL, closing the
netdev), inserts it into the device's port hmap, then runs the backend's
`port_construct`; on construct failure `p4port_destroy__` removes the port
just inserted, leaving the table as before. -/
def p4port_install (p : P4rt) (netdev : Netdev) (port_no : Nat) : Int × P4rt :=
  if p.p4rt_class.port_alloc_ok then
    let port : P4port := { port_no := port_no, netdev := netdev }
    let p1 : P4rt := { p with ports := p.ports ++ [port] }
    if p.p4rt_class.port_construct = 0 then (0, p1)
    else (p.p4rt_class.port_construct, { p1 with ports := p.ports })
  else (ENOMEM, p)

/-- Function `update_port`: reconciles one port name against the backend's
authoritative `port_query_by_name` answer.  A failed query leaves the netdev
NULL (and the error 0); an opened netdev is matched against the port table by
the resolved port number: an existing port whose netdev name equals `name` is
an idempotent no-op, otherwise any stale port with that number is removed and
a new port installed. -/
def update_port (env : NetdevEnv) (p : P4rt) (name : String) : Int × P4rt :=
  match p.p4rt_class.port_query_by_name name with
  | none => (0, p)
  | some info0 =>
    match p4rt_port_open env p info0 with
    | (e, _, none) => (e, p)
    | (e, info, some netdev) =>
      match p4rt_get_port p info.port_no with
      | some port =>
        if port.netdev.name = name then (e, p)
        else
          let p1 := p4port_remove p port.port_no
          p4port_install p1 netdev info.port_no
      | none => p4port_install p netdev info.port_no

/-- The port number `update_port` ends up using for a queried port: the
backend's reported number, with OFPP_NONE resolved by `p4rt_port_open`
(OFPP_LOCAL for the device's own name, otherwise the stub allocator). -/
def resolved_port_no (p : P4rt) (info : P4rtPortInfo) : Nat :=
  if info.port_no = OFPP_NONE then
    if p.name = info.name then OFPP_LOCAL else alloc_p4rt_port p info.name
  else info.port_no

/-! Concrete backend classes, devices and states used to evaluate the
definitions on closed inputs. -/

/-- A well-behaved backend supporting the type "system": every operation
succeeds and the optional hooks are absent. -/
def sysClass : P4rtClass :=
  { id := 0, enumerate_types := ["system"], alloc_ok := true, construct := 0,
    port_alloc_ok := true, port_construct := 0, program_alloc_ok := true,
    program_insert := 0, port_query_by_name := fun _ => none, del := none,
    type_run := none }

/-- A backend whose device `construct` hook fails with error 5. -/
def failConstructClass : P4rtClass := { sysClass with id := 1, construct := 5 }

/-- A backend whose `program_insert` hook fails with error 1. -/
def insertFailClass : P4rtClass := { sysClass with id := 2, program_insert := 1 }

/-- A backend that reports every queried port name with no assigned number. -/
def eth0QueryClass : P4rtClass :=
  { sysClass with
    id := 3
    port_query_by_name := fun n =>
      some { name := n, type := "system", port_no := OFPP_NONE } }

/-- A backend exposing a `del` hook that always succeeds. -/
def delClass : P4rtClass := { sysClass with id := 4, del := some (fun _ _ => 0) }

/-- A netdev environment in which every open succeeds. -/
def openAllEnv : NetdevEnv := { netdev_open_ok := fun _ _ => true }

/-- A file system with no readable files. -/
def emptyFileEnv : FileEnv := { contents := fun _ => none }

/-- A registered device with no ports and no program. -/
def plainDev : P4rt :=
  { nodeId := 0, name := "br0", type := "system", dev_id := 0, ports := [],
    prog := none, p4rt_class := sysClass }

/-- A registered device holding an installed program of bytes [1, 2, 3],
whose backend fails `program_insert`. -/
def devWithProg : P4rt :=
  { nodeId := 0, name := "br0", type := "system", dev_id := 0, ports := [],
    prog := some { data := [1, 2, 3], data_len := 3 }, p4rt_class := insertFailClass }

/-- A registered device with no ports whose backend answers port queries. -/
def devNoPorts : P4rt :=
  { nodeId := 0, name := "br0", type := "system", dev_id := 0, ports := [],
    prog := none, p4rt_class := eth0QueryClass }

/-- Global state: one "system" backend, no devices. -/
def emptyRegistryState : GlobalState :=
  { p4rt_classes := [sysClass], all_p4rts := [], pending := [], reclaimed := [],
    nextId := 0 }

/-- Global state: one "system" backend whose construct fails, no devices. -/
def failCreateState : GlobalState :=
  { p4rt_classes := [failConstructClass], all_p4rts := [], pending := [],
    reclaimed := [], nextId := 0 }

/-- Global state: one registered device `plainDev`. -/
def singleDevState : GlobalState :=
  { p4rt_classes := [sysClass], all_p4rts := [plainDev], pending := [],
    reclaimed := [], nextId := 1 }

/-- Global state: one registered device `devWithProg`. -/
def progDevState : GlobalState :=
  { p4rt_classes := [insertFailClass], all_p4rts := [devWithProg], pending := [],
    reclaimed := [], nextId := 1 }

/-! Theorems. -/

/-- C10: `p4rt_type_run` (after defaulting an empty type to "system") and
`p4rt_type_wait` read the class returned by the type lookup without a NULL
check; the run is safe (no NULL dereference, modelled as an `isSome` result)
exactly when some registered backend's enumerated type set contains the
defaulted datapath type. -/
theorem type_run_wait_null_safety (classes : List P4rtClass) (t : String) :
    ((p4rt_type_run classes t).isSome = true ↔
      ∃ c ∈ classes, dpif_normalize_type t ∈ c.enumerate_types) ∧
    ((p4rt_type_wait classes t).isSome = true ↔
      ∃ c ∈ classes, dpif_normalize_type t ∈ c.enumerate_types) := by
  have hfind : ∀ ty : String, (p4rt_class_find__ classes ty).isSome = true ↔
      ∃ c ∈ classes, ty ∈ c.enumerate_types := by
    intro ty
    unfold p4rt_class_find__
    simp [List.find?_isSome]
  have h1 : (p4rt_type_run classes t).isSome =
      (p4rt_class_find__ classes (dpif_normalize_type t)).isSome := by
    cases hf : p4rt_class_find__ classes (dpif_normalize_type t) with
    | none => simp [p4rt_type_run, dpif_normalize_type] at hf ⊢; simp [hf]
    | some cls =>
      rw [show p4rt_class_find__ classes (dpif_normalize_type t) =
            p4rt_class_find__ classes (if t = "" then "system" else t) from rfl] at hf
      cases htr : cls.type_run <;> simp [p4rt_type_run, hf, htr]
  have h2 : (p4rt_type_wait classes t).isSome =
      (p4rt_class_find__ classes (dpif_normalize_type t)).isSome := by
    cases hf : p4rt_class_find__ classes (dpif_normalize_type t) with
    | none => simp [p4rt_type_wait, hf]
    | some cls => simp [p4rt_type_wait, hf]
  rw [h1, h2]
  exact ⟨hfind (dpif_normalize_type t), hfind (dpif_normalize_type t)⟩

/-- C9: when a device already holds an installed program,
`p4rt_initialize_datapath` returns success with the device unchanged and the
file untouched (the third component records any file access), for every file
environment. -/
theorem initialize_datapath_existing_program_noop (env : FileEnv) (p : P4rt)
    (filename : String) (pr : Program) (h : p.prog = some pr) :
    p4rt_initialize_datapath env p filename = (0, p, false) := by
  unfold p4rt_initialize_datapath
  rw [h]
  rfl

/-- Witness for C9: a device holding a program is untouched even when the
file system has no readable files. -/
theorem initialize_datapath_existing_program_noop_witness :
    p4rt_initialize_datapath emptyFileEnv devWithProg "prog.bin" =
      (0, devWithProg, false) :=
  initialize_datapath_existing_program_noop emptyFileEnv devWithProg "prog.bin"
    { data := [1, 2, 3], data_len := 3 } rfl

/-- C8: `p4rt_query_switch_features` succeeds on every registered device with
`n_ports` the size of that device's port table and `n_tables` zero, and fails
with ENODEV on a name matching no registered device. -/
theorem query_switch_features_spec (devs : List P4rt) (name : String) :
    (∀ p, p4rt_lookup devs name = some p →
      p4rt_query_switch_features devs name =
        Except.ok { n_tables := 0, n_ports := p.ports.length }) ∧
    (p4rt_lookup devs name = none →
      p4rt_query_switch_features devs name = Except.error ENODEV) := by
  constructor
  · intro p hp
    unfold p4rt_query_switch_features
    rw [hp]
  · intro hnone
    unfold p4rt_query_switch_features
    rw [hnone]

/-- Witness for C8: the features of the registered device "br0" with an empty
port table are portCount 0, tableCount 0. -/
theorem query_switch_features_spec_witness :
    p4rt_query_switch_features [plainDev] "br0" =
      Except.ok { n_tables := 0, n_ports := 0 } :=
  (query_switch_features_spec [plainDev] "br0").1 plainDev rfl

/-- C6: `p4rt_delete` fails with EAFNOSUPPORT when no registered backend
supports the type, fails with EACCES when the resolved backend exposes no
`del` hook, and otherwise returns the hook's result on (type, name). -/
theorem delete_resolution_spec (classes : List P4rtClass) (name type : String) :
    ((∀ d ∈ classes, type ∉ d.enumerate_types) →
      p4rt_delete classes name type = EAFNOSUPPORT) ∧
    (∀ c, p4rt_class_find__ classes type = some c → c.del = none →
      p4rt_delete classes name type = EACCES) ∧
    (∀ c f, p4rt_class_find__ classes type = some c → c.del = some f →
      p4rt_delete classes name type = f type name) := by
  refine ⟨?_, ?_, ?_⟩
  · intro h
    have hnone : p4rt_class_find__ classes type = none := by
      unfold p4rt_class_find__
      rw [List.find?_eq_none]
      intro c hc
      simpa using h c hc
    unfold p4rt_delete
    rw [hnone]
  · intro c hc hdel
    simp [p4rt_delete, hc, hdel]
  · intro c f hc hdel
    simp [p4rt_delete, hc, hdel]

/-- Witness for C6: a backend with a `del` hook delegates deletion to it. -/
theorem delete_resolution_spec_witness :
    p4rt_delete [delClass] "br0" "system" = 0 :=
  (delete_resolution_spec [delClass] "br0" "system").2.2 delClass
    (fun _ _ => 0) rfl rfl

/-- C7: `p4rt_class_register` fails with EEXIST when the identical (same
pointer identity) class is registered and otherwise appends it, preserving
registration order; `p4rt_class_find__` returns none exactly when no
registered class supports the type, and returns a class exactly when it is
the first in registration order whose enumerated type set contains the
type. -/
theorem class_register_find_spec (classes : List P4rtClass) (c : P4rtClass)
    (type : String) :
    ((∃ d ∈ classes, d.id = c.id) →
      p4rt_class_register classes c = (classes, EEXIST)) ∧
    ((∀ d ∈ classes, d.id ≠ c.id) →
      p4rt_class_register classes c = (classes ++ [c], 0)) ∧
    (p4rt_class_find__ classes type = none ↔
      ∀ d ∈ classes, type ∉ d.enumerate_types) ∧
    (∀ c2, p4rt_class_find__ classes type = some c2 ↔
      ∃ l1 l2, classes = l1 ++ c2 :: l2 ∧ type ∈ c2.enumerate_types ∧
        ∀ d ∈ l1, type ∉ d.enumerate_types) := by
  refine ⟨?_, ?_, ?_, ?_⟩
  · rintro ⟨d, hd, hid⟩
    unfold p4rt_class_register
    rw [if_pos]
    rw [List.any_eq_true]
    exact ⟨d, hd, by simpa using hid⟩
  · intro h
    unfold p4rt_class_register
    rw [if_neg]
    simp only [List.any_eq_true, not_exists, not_and]
    intro d hd
    simpa using h d hd
  · unfold p4rt_class_find__
    rw [List.find?_eq_none]
    constructor
    · intro h d hd
      simpa using h d hd
    · intro h d hd
      simpa using h d hd
  · intro c2
    unfold p4rt_class_find__
    rw [List.find?_eq_some]
    constructor
    · rintro ⟨hc2, l1, l2, heq, hall⟩
      refine ⟨l1, l2, heq, by simpa using hc2, ?_⟩
      intro d hd
      simpa using hall d hd
    · rintro ⟨l1, l2, heq, hc2, hall⟩
      refine ⟨by simpa using hc2, l1, l2, heq, ?_⟩
      intro d hd
      simpa using hall d hd

/-- Witness for C7: registering `sysClass` twice fails with EEXIST;
registering a distinct class appends it; the find on "system" over the
two-class registry returns the first class in registration order. -/
theorem class_register_find_spec_witness :
    p4rt_class_register [sysClass] sysClass = ([sysClass], EEXIST) ∧
    p4rt_class_register [sysClass] delClass = ([sysClass, delClass], 0) ∧
    p4rt_class_find__ [sysClass, delClass] "system" = some sysClass := by
  refine ⟨?_, ?_, ?_⟩
  · exact (class_register_find_spec [sysClass] sysClass "system").1
      ⟨sysClass, by simp, rfl⟩
  · exact (class_register_find_spec [sysClass] delClass "system").2.1
      (by intro d hd; simp only [List.mem_singleton] at hd; subst hd; decide)
  · exact ((class_register_find_spec [sysClass, delClass] sysClass "system").2.2.2
      sysClass).mpr ⟨[], [delClass], rfl, by simp [sysClass], by simp⟩

/-- Appending a record with a fresh identity and removing that identity gives
back the original list. -/
theorem removeFirstByNodeId_append_fresh (xs : List P4rt) (p : P4rt) (nid : Nat)
    (hp : p.nodeId = nid) (h : ∀ q ∈ xs, q.nodeId ≠ nid) :
    removeFirstByNodeId (xs ++ [p]) nid = xs := by
  induction xs with
  | nil => simp [removeFirstByNodeId, hp]
  | cons x xs ih =>
    simp only [List.cons_append, removeFirstByNodeId, List.append_eq]
    rw [if_neg (h x (List.mem_cons_self x xs)),
        ih (fun q hq => h q (List.mem_cons_of_mem x hq))]

/-- C3: when the backend's `construct` hook fails, `p4rt_create` returns the
construction error, the Device Registry is unchanged (the fresh record was
unregistered and reclaimed synchronously, with no deferred callback
scheduled), and no device is handed back to the caller. -/
theorem create_construct_failure_unwinds (st : GlobalState) (name ty : String)
    (c : P4rtClass)
    (hfind : p4rt_class_find__ st.p4rt_classes (dpif_normalize_type ty) = some c)
    (halloc : c.alloc_ok = true)
    (hfail : c.construct ≠ 0)
    (hfresh : ∀ q ∈ st.all_p4rts, q.nodeId ≠ st.nextId) :
    p4rt_create st name ty =
      (c.construct,
       { st with reclaimed := st.reclaimed ++ [st.nextId],
                 nextId := st.nextId + 1 },
       none) := by
  simp only [p4rt_create, hfind]
  rw [if_pos halloc, if_neg hfail]
  simp only [p4rt_destroy__]
  rw [removeFirstByNodeId_append_fresh st.all_p4rts _ st.nextId rfl hfresh]

/-- Witness for C3: a failing construct on an empty registry returns error 5
and leaves the registry empty, the record reclaimed synchronously. -/
theorem create_construct_failure_unwinds_witness :
    p4rt_create failCreateState "br0" "system" =
      (5, { failCreateState with reclaimed := [0], nextId := 1 }, none) :=
  create_construct_failure_unwinds failCreateState "br0" "system"
    failConstructClass rfl rfl (by decide)
    (by intro q hq; simp [failCreateState] at hq)

/-- C4 counterexample: with one backend supporting only "system", the type
string "" is supported by no registered backend, yet `create("br0", "")`
succeeds (the type is normalized to "system" first) and grows the registry by
one device, so a create with an unsupported type string does not always fail
nor leave the registry unchanged. -/
theorem create_unsupported_type_counterexample :
    (∀ c ∈ emptyRegistryState.p4rt_classes, "" ∉ c.enumerate_types) ∧
    (p4rt_create emptyRegistryState "br0" "").1 = 0 ∧
    (p4rt_create emptyRegistryState "br0" "").2.1.all_p4rts.length =
      emptyRegistryState.all_p4rts.length + 1 := by
  refine ⟨?_, rfl, rfl⟩
  intro c hc
  simp only [emptyRegistryState, List.mem_singleton] at hc
  subst hc
  decide

/-- C4 (amended): for every type whose normalized form is supported by no
registered backend, `p4rt_create` fails with EAFNOSUPPORT and leaves the
whole global state (in particular the Device Registry) unchanged. -/
theorem create_unsupported_normalized_type (st : GlobalState) (name ty : String)
    (h : ∀ c ∈ st.p4rt_classes, dpif_normalize_type ty ∉ c.enumerate_types) :
    p4rt_create st name ty = (EAFNOSUPPORT, st, none) := by
  have hnone : p4rt_class_find__ st.p4rt_classes (dpif_normalize_type ty) = none := by
    unfold p4rt_class_find__
    rw [List.find?_eq_none]
    intro c hc
    simpa using h c hc
  simp [p4rt_create, hnone]

/-- Witness for C4 (amended): creating a device of type "foo" with only a
"system" backend registered fails with EAFNOSUPPORT and changes nothing. -/
theorem create_unsupported_normalized_type_witness :
    p4rt_create emptyRegistryState "br0" "foo" =
      (EAFNOSUPPORT, emptyRegistryState, none) :=
  create_unsupported_normalized_type emptyRegistryState "br0" "foo"
    (by intro c hc; simp only [emptyRegistryState, List.mem_singleton] at hc;
        subst hc; decide)

/-- The replacement record is a member of the updated registry when the
replaced identity was present. -/
theorem mem_replaceFirstByNodeId (xs : List P4rt) (nid : Nat) (q : P4rt)
    (d : P4rt) (h : findByNodeId xs nid = some d) :
    q ∈ replaceFirstByNodeId xs nid q := by
  induction xs with
  | nil => simp [findByNodeId] at h
  | cons x xs ih =>
    by_cases hx : x.nodeId = nid
    · simp [replaceFirstByNodeId, hx]
    · have h2 : findByNodeId xs nid = some d := by
        unfold findByNodeId at h ⊢
        rwa [List.find?_cons_of_neg _ (by simp [hx])] at h
      simp only [replaceFirstByNodeId, if_neg hx]
      exact List.mem_cons_of_mem x (ih h2)

/-- Replacing a record by one with the same identity and then removing that
identity removes exactly the original record. -/
theorem removeFirst_replaceFirst (xs : List P4rt) (nid : Nat) (q : P4rt)
    (hq : q.nodeId = nid) :
    removeFirstByNodeId (replaceFirstByNodeId xs nid q) nid =
      removeFirstByNodeId xs nid := by
  induction xs with
  | nil => rfl
  | cons x xs ih =>
    by_cases hx : x.nodeId = nid
    · simp [replaceFirstByNodeId, removeFirstByNodeId, hx, hq]
    · simp [replaceFirstByNodeId, removeFirstByNodeId, hx, ih]

/-- Members of the registry after a removal were members before. -/
theorem mem_of_mem_removeFirstByNodeId (xs : List P4rt) (nid : Nat) (x : P4rt)
    (h : x ∈ removeFirstByNodeId xs nid) : x ∈ xs := by
  induction xs with
  | nil => simpa [removeFirstByNodeId] using h
  | cons y ys ih =>
    by_cases hy : y.nodeId = nid
    · simp only [removeFirstByNodeId, if_pos hy] at h
      exact List.mem_cons_of_mem y h
    · simp only [removeFirstByNodeId, if_neg hy] at h
      rcases List.mem_cons.mp h with h1 | h2
      · exact h1 ▸ List.mem_cons_self y ys
      · exact List.mem_cons_of_mem y (ih h2)

/-- With pairwise-distinct identities, no record left after removing `nid`
carries the identity `nid`. -/
theorem nodeId_ne_of_mem_removeFirstByNodeId (xs : List P4rt) (nid : Nat)
    (hnd : (xs.map P4rt.nodeId).Nodup) :
    ∀ x ∈ removeFirstByNodeId xs nid, x.nodeId ≠ nid := by
  induction xs with
  | nil => simp [removeFirstByNodeId]
  | cons y ys ih =>
    simp only [List.map_cons, List.nodup_cons] at hnd
    obtain ⟨hy_not, hnd2⟩ := hnd
    by_cases hy : y.nodeId = nid
    · intro x hx hxnid
      simp only [removeFirstByNodeId, if_pos hy] at hx
      have hmm : x.nodeId ∈ ys.map P4rt.nodeId :=
        List.mem_map_of_mem P4rt.nodeId hx
      rw [hxnid, ← hy] at hmm
      exact hy_not hmm
    · intro x hx
      simp only [removeFirstByNodeId, if_neg hy] at hx
      rcases List.mem_cons.mp hx with h1 | h2
      · exact h1 ▸ hy
      · exact ih hnd2 x h2

/-- C1 counterexample: destroying the registered device "br0" leaves it still
findable by name and by numeric id after `p4rt_destroy` returns, and its
record not yet reclaimed, because the unregistration itself (not only the
memory reclamation) is deferred to the RCU callback. -/
theorem destroy_leaves_device_registered :
    (p4rt_lookup (p4rt_destroy singleDevState (some 0) true).all_p4rts
      "br0").isSome = true ∧
    (p4rt_lookup_by_dev_id (p4rt_destroy singleDevState (some 0) true).all_p4rts
      0).isSome = true ∧
    (p4rt_destroy singleDevState (some 0) true).reclaimed = [] :=
  ⟨rfl, rfl, rfl⟩

/-- C1 (amended): `p4rt_destroy` on a registered device leaves the device
registered (lookup by name still succeeds) and schedules a deferred
destructor; the unregistration from the name and id lookup mappings happens
together with the reclamation of the record, inside the deferred phase: after
the scheduled RCU callbacks run, lookups by the device's name and id return
not-found and the record's memory has been reclaimed. -/
theorem destroy_unregisters_only_in_deferred_phase (st : GlobalState) (dev : P4rt)
    (hmem : findByNodeId st.all_p4rts dev.nodeId = some dev)
    (hpend : st.pending = [])
    (hids : (st.all_p4rts.map P4rt.nodeId).Nodup)
    (hname : ∀ q ∈ st.all_p4rts, q.name = dev.name → q.nodeId = dev.nodeId)
    (hdev : ∀ q ∈ st.all_p4rts, q.dev_id = dev.dev_id → q.nodeId = dev.nodeId) :
    (p4rt_lookup (p4rt_destroy st (some dev.nodeId) true).all_p4rts
      dev.name).isSome = true ∧
    (p4rt_destroy st (some dev.nodeId) true).pending =
      [Deferred.destroyDefer dev.nodeId] ∧
    (p4rt_destroy st (some dev.nodeId) true).reclaimed = st.reclaimed ∧
    p4rt_lookup (ovsrcu_run (p4rt_destroy st (some dev.nodeId) true) 2).all_p4rts
      dev.name = none ∧
    p4rt_lookup_by_dev_id
      (ovsrcu_run (p4rt_destroy st (some dev.nodeId) true) 2).all_p4rts
      dev.dev_id = none ∧
    (ovsrcu_run (p4rt_destroy st (some dev.nodeId) true) 2).reclaimed =
      st.reclaimed ++ [dev.nodeId] := by
  have hdestroy : p4rt_destroy st (some dev.nodeId) true =
      { st with
        all_p4rts := replaceFirstByNodeId st.all_p4rts dev.nodeId
          { dev with ports := [], prog := none },
        pending := st.pending ++ [Deferred.destroyDefer dev.nodeId] } := by
    simp [p4rt_destroy, hmem]
  have hrun : ovsrcu_run ({ st with
        all_p4rts := replaceFirstByNodeId st.all_p4rts dev.nodeId
          { dev with ports := [], prog := none },
        pending := st.pending ++ [Deferred.destroyDefer dev.nodeId] }) 2 =
      { st with
        all_p4rts := removeFirstByNodeId st.all_p4rts dev.nodeId,
        pending := [],
        reclaimed := st.reclaimed ++ [dev.nodeId] } := by
    rw [hpend]
    simp only [ovsrcu_run, ovsrcu_run_one, List.nil_append, p4rt_destroy__]
    rw [removeFirst_replaceFirst st.all_p4rts dev.nodeId
      { dev with ports := [], prog := none } rfl]
  rw [hdestroy]
  refine ⟨?_, ?_, ?_, ?_, ?_, ?_⟩
  · simp only [p4rt_lookup, List.find?_isSome]
    exact ⟨{ dev with ports := [], prog := none },
      mem_replaceFirstByNodeId st.all_p4rts dev.nodeId _ dev hmem, by simp⟩
  · simp [hpend]
  · rfl
  · rw [hrun]
    simp only [p4rt_lookup]
    rw [List.find?_eq_none]
    intro x hx
    simp only [beq_iff_eq]
    intro heqname
    exact nodeId_ne_of_mem_removeFirstByNodeId st.all_p4rts dev.nodeId hids x hx
      (hname x (mem_of_mem_removeFirstByNodeId st.all_p4rts dev.nodeId x hx) heqname)
  · rw [hrun]
    simp only [p4rt_lookup_by_dev_id]
    rw [List.find?_eq_none]
    intro x hx
    simp only [beq_iff_eq]
    intro heqid
    exact nodeId_ne_of_mem_removeFirstByNodeId st.all_p4rts dev.nodeId hids x hx
      (hdev x (mem_of_mem_removeFirstByNodeId st.all_p4rts dev.nodeId x hx) heqid)
  · rw [hrun]

/-- Witness for C1 (amended): the single-device state, concretely. -/
theorem destroy_unregisters_only_in_deferred_phase_witness :
    (p4rt_lookup (p4rt_destroy singleDevState (some plainDev.nodeId) true).all_p4rts
      plainDev.name).isSome = true ∧
    (p4rt_destroy singleDevState (some plainDev.nodeId) true).pending =
      [Deferred.destroyDefer plainDev.nodeId] ∧
    (p4rt_destroy singleDevState (some plainDev.nodeId) true).reclaimed =
      singleDevState.reclaimed ∧
    p4rt_lookup
      (ovsrcu_run (p4rt_destroy singleDevState (some plainDev.nodeId) true) 2).all_p4rts
      plainDev.name = none ∧
    p4rt_lookup_by_dev_id
      (ovsrcu_run (p4rt_destroy singleDevState (some plainDev.nodeId) true) 2).all_p4rts
      plainDev.dev_id = none ∧
    (ovsrcu_run (p4rt_destroy singleDevState (some plainDev.nodeId) true) 2).reclaimed =
      singleDevState.reclaimed ++ [plainDev.nodeId] :=
  destroy_unregisters_only_in_deferred_phase singleDevState plainDev rfl rfl
    (by decide)
    (by intro q hq; simp only [singleDevState, List.mem_singleton] at hq;
        subst hq; intro; rfl)
    (by intro q hq; simp only [singleDevState, List.mem_singleton] at hq;
        subst hq; intro; rfl)

/-- C2 counterexample: on a device that already holds the program bytes
[1, 2, 3], a program push whose backend insert fails returns the generic
target error but leaves the device's Program holding the NEW bytes [9]: the
pre-existing program bytes and length were overwritten in place before the
insert and are not restored. -/
theorem program_push_failure_overwrites_existing_program :
    (pi_update_device_start progDevState 0 [9]).1 = PiStatus.targetError ∧
    (pi_update_device_start progDevState 0 [9]).2.all_p4rts =
      [{ devWithProg with prog := some { data := [9], data_len := 1 } }] :=
  ⟨rfl, rfl⟩

/-- C2 (amended): when the backend's program-insert step fails, the push
returns the generic target error; if the device had no installed Program the
freshly allocated slot is deallocated and the device still has none, while if
the device already had an installed Program, that Program object is retained
but its bytes and length have already been overwritten in place with the new
payload. -/
theorem program_push_insert_failure_spec (p : P4rt) (data : List Nat)
    (hfail : p.p4rt_class.program_insert ≠ 0) :
    (p.prog = none → p.p4rt_class.program_alloc_ok = true →
      pi_update_device_start_dev p data = (PiStatus.targetError, p)) ∧
    (∀ pr0, p.prog = some pr0 →
      pi_update_device_start_dev p data =
        (PiStatus.targetError,
         { p with prog := some { data := data, data_len := data.length } })) := by
  constructor
  · intro hnone halloc
    simp [pi_update_device_start_dev, hnone, halloc, hfail]
  · intro pr0 hsome
    simp [pi_update_device_start_dev, hsome, hfail]

/-- Witness for C2 (amended): the overwritten-in-place failure outcome on the
concrete device holding [1, 2, 3]. -/
theorem program_push_insert_failure_spec_witness :
    pi_update_device_start_dev devWithProg [9] =
      (PiStatus.targetError,
       { devWithProg with prog := some { data := [9], data_len := 1 } }) :=
  (program_push_insert_failure_spec devWithProg [9] (by decide)).2
    { data := [1, 2, 3], data_len := 3 } rfl

/-- A successful netdev open yields no error, the resolved port number, and a
handle named after the queried port. -/
theorem p4rt_port_open_success (env : NetdevEnv) (p : P4rt) (info : P4rtPortInfo)
    (h : env.netdev_open_ok info.name info.type = true) :
    p4rt_port_open env p info =
      (0, { info with port_no := resolved_port_no p info },
       some { name := info.name }) := by
  unfold p4rt_port_open resolved_port_no
  rw [h]
  by_cases h1 : info.port_no = OFPP_NONE
  · by_cases h2 : p.name = info.name
    · simp [h1, h2]
    · simp [h1, h2, alloc_p4rt_port, OFPP_NONE]
  · simp [h1]

/-- Installing a port when both the allocation and the backend construct
succeed appends the new port record to the table. -/
theorem p4port_install_success (p : P4rt) (nd : Netdev) (pn : Nat)
    (halloc : p.p4rt_class.port_alloc_ok = true)
    (hcons : p.p4rt_class.port_construct = 0) :
    p4port_install p nd pn =
      (0, { p with ports := p.ports ++ [{ port_no := pn, netdev := nd }] }) := by
  unfold p4port_install
  rw [if_pos halloc, if_pos hcons]

/-- After removing port number `n` from a table with pairwise-distinct port
numbers, no port numbered `n` remains. -/
theorem find_removeFirstPortByNo_none (ports : List P4port) (n : Nat)
    (h : (ports.map P4port.port_no).Nodup) :
    (removeFirstPortByNo ports n).find? (fun q => q.port_no == n) = none := by
  induction ports with
  | nil => rfl
  | cons q qs ih =>
    simp only [List.map_cons, List.nodup_cons] at h
    obtain ⟨hq_not, h2⟩ := h
    by_cases hq : q.port_no = n
    · simp only [removeFirstPortByNo, if_pos hq]
      rw [List.find?_eq_none]
      intro x hx
      simp only [beq_iff_eq]
      intro hxn
      have hmm : x.port_no ∈ qs.map P4port.port_no :=
        List.mem_map_of_mem P4port.port_no hx
      rw [hxn, ← hq] at hmm
      exact hq_not hmm
    · simp only [removeFirstPortByNo, if_neg hq]
      rw [List.find?_cons_of_neg _ (by simp [hq])]
      exact ih h2

/-- Function `update_port` is a no-op returning success when the backend's answer
resolves to a port number already installed with a matching netdev name. -/
theorem update_port_noop (env : NetdevEnv) (p : P4rt) (name : String)
    (info : P4rtPortInfo) (port : P4port)
    (hq : p.p4rt_class.port_query_by_name name = some info)
    (hopen : env.netdev_open_ok info.name info.type = true)
    (hget : p4rt_get_port p (resolved_port_no p info) = some port)
    (hmatch : port.netdev.name = name) :
    update_port env p name = (0, p) := by
  unfold update_port
  simp only [hq, p4rt_port_open_success env p info hopen, hget]
  rw [if_pos hmatch]

/-- C5: port reconciliation is idempotent.  When the backend's authoritative
answer for `name` is a port that can be opened, and installation succeeds,
then after the first `update_port` call a port with the resolved handle and
matching netdev name is installed, the call returns success, and a second
call with the unchanged backend answer performs no port-table mutation and
returns success. -/
theorem update_port_idempotent (env : NetdevEnv) (p : P4rt) (name : String)
    (info : P4rtPortInfo)
    (hq : p.p4rt_class.port_query_by_name name = some info)
    (hn : info.name = name)
    (hopen : env.netdev_open_ok info.name info.type = true)
    (halloc : p.p4rt_class.port_alloc_ok = true)
    (hcons : p.p4rt_class.port_construct = 0)
    (hnodup : (p.ports.map P4port.port_no).Nodup) :
    (update_port env p name).1 = 0 ∧
    p4rt_get_port (update_port env p name).2 (resolved_port_no p info) =
      some { port_no := resolved_port_no p info, netdev := { name := name } } ∧
    update_port env (update_port env p name).2 name =
      (0, (update_port env p name).2) := by
  subst hn
  cases hget : p4rt_get_port p (resolved_port_no p info) with
  | some port =>
    by_cases hmatch : port.netdev.name = info.name
    · have h1 : update_port env p info.name = (0, p) :=
        update_port_noop env p info.name info port hq hopen hget hmatch
      rw [h1]
      refine ⟨rfl, ?_, h1⟩
      rw [hget]
      have hpred := List.find?_some (show List.find?
        (fun q => q.port_no == resolved_port_no p info) p.ports = some port from hget)
      have hpn : port.port_no = resolved_port_no p info := by simpa using hpred
      obtain ⟨pn, ndn⟩ := port
      obtain ⟨nm⟩ := ndn
      have hpn2 : pn = resolved_port_no p info := hpn
      have hmatch2 : nm = info.name := hmatch
      rw [hpn2, hmatch2]
    · have hpred := List.find?_some (show List.find?
        (fun q => q.port_no == resolved_port_no p info) p.ports = some port from hget)
      have hpn : port.port_no = resolved_port_no p info := by simpa using hpred
      have h1 : update_port env p info.name =
          (0, { p with ports :=
            removeFirstPortByNo p.ports (resolved_port_no p info) ++
              [{ port_no := resolved_port_no p info,
                 netdev := { name := info.name } }] }) := by
        unfold update_port
        simp only [hq, p4rt_port_open_success env p info hopen, hget]
        rw [if_neg hmatch, hpn]
        exact p4port_install_success (p4port_remove p (resolved_port_no p info))
          { name := info.name } (resolved_port_no p info) halloc hcons
      rw [h1]
      have hget2 : p4rt_get_port
          (0, { p with ports :=
            removeFirstPortByNo p.ports (resolved_port_no p info) ++
              [{ port_no := resolved_port_no p info,
                 netdev := { name := info.name } }] }).2
          (resolved_port_no p info) =
          some { port_no := resolved_port_no p info,
                 netdev := { name := info.name } } := by
        unfold p4rt_get_port
        rw [List.find?_append,
          find_removeFirstPortByNo_none p.ports (resolved_port_no p info) hnodup]
        simp
      refine ⟨rfl, hget2, ?_⟩
      exact update_port_noop env _ info.name info _ hq hopen hget2 rfl
  | none =>
    have h1 : update_port env p info.name =
        (0, { p with ports := p.ports ++
          [{ port_no := resolved_port_no p info,
             netdev := { name := info.name } }] }) := by
      unfold update_port
      simp only [hq, p4rt_port_open_success env p info hopen, hget]
      exact p4port_install_success p { name := info.name }
        (resolved_port_no p info) halloc hcons
    rw [h1]
    have hget2 : p4rt_get_port
        (0, { p with ports := p.ports ++
          [{ port_no := resolved_port_no p info,
             netdev := { name := info.name } }] }).2
        (resolved_port_no p info) =
        some { port_no := resolved_port_no p info,
               netdev := { name := info.name } } := by
      unfold p4rt_get_port
      rw [List.find?_append]
      rw [show List.find? (fun q => q.port_no == resolved_port_no p info) p.ports
        = none from hget]
      simp
    refine ⟨rfl, hget2, ?_⟩
    exact update_port_noop env _ info.name info _ hq hopen hget2 rfl

/-- Witness for C5: reconciling the port "eth0" on a device with an empty
port table installs it with the stub-allocated handle; the second
reconciliation is a no-op. -/
theorem update_port_idempotent_witness :
    (update_port openAllEnv devNoPorts "eth0").1 = 0 ∧
    p4rt_get_port (update_port openAllEnv devNoPorts "eth0").2
      (resolved_port_no devNoPorts
        { name := "eth0", type := "system", port_no := OFPP_NONE }) =
      some { port_no := resolved_port_no devNoPorts
               { name := "eth0", type := "system", port_no := OFPP_NONE },
             netdev := { name := "eth0" } } ∧
    update_port openAllEnv (update_port openAllEnv devNoPorts "eth0").2 "eth0" =
      (0, (update_port openAllEnv devNoPorts "eth0").2) :=
  update_port_idempotent openAllEnv devNoPorts "eth0"
    { name := "eth0", type := "system", port_no := OFPP_NONE }
    rfl rfl rfl rfl rfl (by simp [devNoPorts])

end P4OvS
